import Mathlib

/-!
Shallow embedding of the request-rate governor of the
Business-Intelligence-Platform repository:

* `RateLimiter` models `src/modules/rate_limiter.py` (the admission gate):
  a sliding-window limiter with a capacity `requests_per_minute`, a window
  `window_seconds`, and a deque `request_times` of admitted timestamps.
  Time is modelled as an explicit rational parameter `now`; each Python
  operation receives the clock reading at which it runs (the code reads
  `time.time()` several times inside one operation; single-threaded and
  with no intervening sleep these reads coincide).

* `run_attempts` / `generate_response` model
  `AIService._generate_response` in `src/modules/ai_service.py` (the
  resilient executor): a bounded retry loop with exponential backoff and
  string-heuristic classification of quota errors.  The outbound call is
  an abstract function from the attempt index to a result, the sleeps the
  loop performs are recorded in an explicit trace, and each of the four
  distinct `raise` sites of the Python code is a distinct constructor of
  `GenError`.
-/

/-- Sliding-window rate limiter state, from `RateLimiter.__init__`
(`src/modules/rate_limiter.py`): `requests_per_minute` is the capacity,
`window_seconds` the window length, `request_times` the deque of admitted
timestamps (front = oldest). -/
structure RateLimiter where
  requests_per_minute : ℕ
  window_seconds : ℚ
  request_times : List ℚ
deriving DecidableEq

namespace RateLimiter

/-- The module-level instance: capacity 25, window 60 s, empty deque
(`RateLimiter.__init__`, lines 36-40). -/
def init : RateLimiter :=
  { requests_per_minute := 25, window_seconds := 60, request_times := [] }

/-- `RateLimiter._clean_old_requests` (lines 45-51): pop from the front
while the front timestamp is strictly below `now - window_seconds`. -/
def clean_old_requests (rl : RateLimiter) (now : ℚ) : RateLimiter :=
  { rl with
    request_times :=
      rl.request_times.dropWhile (fun t => decide (t < now - rl.window_seconds)) }

/-- `RateLimiter.get_wait_time` (lines 53-67): prune, return `0` when
under capacity, otherwise the time until the oldest entry leaves the
window, floored at `0`.  The returned pair carries the mutated state
(the prune is a side effect on the shared deque).  `headI` models
`request_times[0]`; the Python expression is only reached with a
nonempty deque when the capacity is positive. -/
def get_wait_time (rl : RateLimiter) (now : ℚ) : ℚ × RateLimiter :=
  let rl₁ := rl.clean_old_requests now
  if rl₁.request_times.length < rl₁.requests_per_minute then
    (0, rl₁)
  else
    (max 0 (rl₁.request_times.headI + rl₁.window_seconds - now), rl₁)

/-- Outcome of one iteration of the `while True` loop of
`RateLimiter.acquire` (lines 82-101): the iteration either appends `now`
and returns `True`, returns `False` on timeout, or goes round the loop
again after sleeping `sleep_for` seconds (`sleep_for = 0` when
`wait_time == 0` fell through the double-check: the code skips the
sleep and spins). -/
inductive AcquireOutcome where
  | admitted (rl : RateLimiter)
  | timed_out (rl : RateLimiter)
  | spin (rl : RateLimiter) (sleep_for : ℚ)
deriving DecidableEq

/-- Lines 93-101 of `acquire`: the timeout check followed by the chunked
sleep, reached when the iteration did not return `True`. -/
def acquire_tail (rl : RateLimiter) (wait elapsed : ℚ) (timeout : Option ℚ) :
    AcquireOutcome :=
  match timeout with
  | some tmo =>
      if elapsed + wait > tmo then .timed_out rl
      else .spin rl (if wait > 0 then min wait 1 else 0)
  | none => .spin rl (if wait > 0 then min wait 1 else 0)

/-- One iteration of the `acquire` loop (lines 82-101) at clock reading
`now`, with `elapsed = now - start_time`: compute `get_wait_time`; if it
is `0`, re-prune and re-check under the lock and on success append `now`
and return `True`; otherwise fall through to the timeout check and the
sleep. -/
def acquire_iter (rl : RateLimiter) (now elapsed : ℚ) (timeout : Option ℚ) :
    AcquireOutcome :=
  let wt := rl.get_wait_time now
  let wait := wt.1
  let rl₁ := wt.2
  if wait = 0 then
    let rl₂ := rl₁.clean_old_requests now
    if rl₂.request_times.length < rl₂.requests_per_minute then
      .admitted { rl₂ with request_times := rl₂.request_times ++ [now] }
    else
      acquire_tail rl₂ wait elapsed timeout
  else
    acquire_tail rl₁ wait elapsed timeout

/-- `RateLimiter.acquire` run for at most `fuel` loop iterations, in the
idealised single-threaded model where the clock advances exactly by the
slept duration between iterations.  `some (b, rl)` is the Python return
value `b` together with the shared state; `none` means the loop had not
returned after `fuel` iterations. -/
def acquire_fixed (rl : RateLimiter) (now elapsed : ℚ) (timeout : Option ℚ) :
    ℕ → Option (Bool × RateLimiter)
  | 0 => none
  | fuel + 1 =>
      match rl.acquire_iter now elapsed timeout with
      | .admitted rl' => some (true, rl')
      | .timed_out rl' => some (false, rl')
      | .spin rl' d => acquire_fixed rl' (now + d) (elapsed + d) timeout fuel

/-- The record returned by `RateLimiter.get_current_usage`
(lines 103-112).  `available` is an integer because Python subtraction
is not truncated. -/
structure UsageStats where
  requests_in_window : ℕ
  limit : ℕ
  available : ℤ
  window_seconds : ℚ
deriving DecidableEq

/-- `RateLimiter.get_current_usage` (lines 103-112): prune, then report
the counts; the pair carries the pruned shared state. -/
def get_current_usage (rl : RateLimiter) (now : ℚ) : UsageStats × RateLimiter :=
  let rl₁ := rl.clean_old_requests now
  ({ requests_in_window := rl₁.request_times.length
     limit := rl₁.requests_per_minute
     available := (rl₁.requests_per_minute : ℤ) - rl₁.request_times.length
     window_seconds := rl₁.window_seconds }, rl₁)

/-- A state change performed on the shared deque by any of the gate's
operations: `prune t` is `_clean_old_requests` at clock `t` (performed
by `get_wait_time`, `get_current_usage`, and the locked re-check of
`acquire`); `commit t` is the locked prune + re-check + append of
`acquire` (lines 86-91), the only site that ever appends. -/
inductive GateEvent where
  | prune (t : ℚ)
  | commit (t : ℚ)

/-- Apply one gate event to the state. -/
def apply_event (rl : RateLimiter) : GateEvent → RateLimiter
  | .prune t => rl.clean_old_requests t
  | .commit t =>
      let rl₁ := rl.clean_old_requests t
      if rl₁.request_times.length < rl₁.requests_per_minute then
        { rl₁ with request_times := rl₁.request_times ++ [t] }
      else rl₁

/-- Apply a sequence of gate events from left to right. -/
def run_events (rl : RateLimiter) : List GateEvent → RateLimiter
  | [] => rl
  | e :: es => run_events (rl.apply_event e) es

end RateLimiter

/-- Substring test on character lists: `containsSub needle hay` is true
iff `needle` occurs contiguously in `hay` (mirrors Python's `in` on
strings). -/
def containsSub (needle : List Char) : List Char → Bool
  | [] => needle.isEmpty
  | c :: t => needle.isPrefixOf (c :: t) || containsSub needle t

/-- Python's `needle in hay` for strings. -/
def strContains (hay needle : String) : Bool :=
  containsSub needle.data hay.data

/-- Python's `str.lower()`: lower-case every character.  (This is the
character-list form of Lean's `String.toLower`, which is defined as
exactly this map.) -/
def strLower (s : String) : String :=
  String.mk (s.data.map Char.toLower)

/-- The quota-error heuristic of `AIService._generate_response`
(lines 73-80 of `src/modules/ai_service.py`): `"429"` is tested on the
raw message, the other four signals on its lower-casing. -/
def is_quota_error (error_str : String) : Bool :=
  let error_lower := strLower error_str
  strContains error_str "429" ||
  strContains error_lower "quota" ||
  strContains error_lower "rate limit" ||
  strContains error_lower "resource exhausted" ||
  strContains error_lower "too many requests"

/-- The four distinct `raise` sites of `AIService._generate_response`:
the not-configured guard (line 58), the quota-exhausted raise (lines
90-95), the immediate wrap of a non-quota error (line 98), and the
unreachable raise after the loop (line 100). -/
inductive GenError where
  | notConfigured (msg : String)
  | quotaExceeded (msg : String)
  | genFailed (msg : String)
  | exhaustedLoop
deriving DecidableEq

/-- The message raised by the not-configured guard (line 58). -/
def not_configured_msg : String :=
  "AI service not configured. Please add your Google API key in Settings."

/-- The message of the quota-exhausted raise (lines 90-95), built from
the retry budget and the last underlying error text. -/
def quota_msg (max_retries : ℕ) (error_str : String) : String :=
  "API quota exceeded after " ++ toString max_retries ++
    (" retries. Original error: " ++
      (error_str ++
        (". Please wait a few minutes before trying again, or upgrade to a paid plan at " ++
          "https://ai.google.dev/gemini-api/docs/billing")))

deriving instance DecidableEq for Except

/-- One run of the executor: the final result, the list of back-off
sleeps performed (in seconds, in order), and how many times the
underlying call was invoked. -/
structure ExecTrace where
  result : Except GenError String
  sleeps : List ℕ
  ncalls : ℕ
deriving DecidableEq

/-- The `for attempt in range(max_retries)` loop of
`AIService._generate_response` (lines 65-100).  `call i` is the result
of the `self.model.generate_content` round-trip on attempt `i` (`.ok`
for a returned text, `.error e` for a raised exception with text `e`).
`remaining` counts the loop iterations still allowed by the `range`
(invariant at every call from `generate_response`:
`remaining + attempt = max_retries`, starting from
`remaining = max_retries`, `attempt = 0`); the loop body runs while
`remaining > 0`, i.e. while `attempt < max_retries`.  On a
quota-classified error with `attempt < max_retries - 1` the loop sleeps
`base_delay * 2 ^ attempt` and retries; on the last attempt it raises
the quota message; a non-quota error is re-raised wrapped, immediately.
Falling out of the loop reaches the trailing raise (line 100),
`GenError.exhaustedLoop`. -/
def run_attempts (call : ℕ → Except String String) (max_retries base_delay : ℕ) :
    (remaining attempt : ℕ) → List ℕ → ℕ → ExecTrace
  | 0, _, sleeps, ncalls => ⟨.error .exhaustedLoop, sleeps, ncalls⟩
  | remaining + 1, attempt, sleeps, ncalls =>
      match call attempt with
      | .ok v => ⟨.ok v, sleeps, ncalls + 1⟩
      | .error e =>
          if is_quota_error e then
            if attempt < max_retries - 1 then
              run_attempts call max_retries base_delay remaining (attempt + 1)
                (sleeps ++ [base_delay * 2 ^ attempt]) (ncalls + 1)
            else
              ⟨.error (.quotaExceeded (quota_msg max_retries e)), sleeps, ncalls + 1⟩
          else
            ⟨.error (.genFailed ("Generation failed: " ++ e)), sleeps, ncalls + 1⟩

/-- `AIService._generate_response` (lines 55-100): the configured guard
followed by the retry loop.  The Python constants are `max_retries = 5`,
`base_delay = 5`; they are parameters here so that the spec's scenarios
(`maxRetries = 3`, `baseDelaySeconds = 1`) are instances. -/
def generate_response (configured : Bool) (call : ℕ → Except String String)
    (max_retries base_delay : ℕ) : ExecTrace :=
  if configured then
    run_attempts call max_retries base_delay max_retries 0 [] 0
  else
    ⟨.error (.notConfigured not_configured_msg), [], 0⟩

namespace RateLimiter

lemma clean_requests_per_minute (rl : RateLimiter) (now : ℚ) :
    (rl.clean_old_requests now).requests_per_minute = rl.requests_per_minute := rfl

lemma clean_window_seconds (rl : RateLimiter) (now : ℚ) :
    (rl.clean_old_requests now).window_seconds = rl.window_seconds := rfl

lemma clean_length_le (rl : RateLimiter) (now : ℚ) :
    (rl.clean_old_requests now).request_times.length ≤ rl.request_times.length :=
  (List.dropWhile_sublist _).length_le

lemma clean_idem (rl : RateLimiter) (now : ℚ) :
    (rl.clean_old_requests now).clean_old_requests now = rl.clean_old_requests now := by
  simp [clean_old_requests, List.dropWhile_idempotent]

lemma apply_event_requests_per_minute (rl : RateLimiter) (e : GateEvent) :
    (rl.apply_event e).requests_per_minute = rl.requests_per_minute := by
  cases e with
  | prune t => rfl
  | commit t =>
      simp only [apply_event]
      split <;> rfl

lemma apply_event_window_seconds (rl : RateLimiter) (e : GateEvent) :
    (rl.apply_event e).window_seconds = rl.window_seconds := by
  cases e with
  | prune t => rfl
  | commit t =>
      simp only [apply_event]
      split <;> rfl

lemma apply_event_length_le (rl : RateLimiter) (e : GateEvent)
    (h : rl.request_times.length ≤ rl.requests_per_minute) :
    (rl.apply_event e).request_times.length ≤ rl.requests_per_minute := by
  cases e with
  | prune t => exact le_trans (clean_length_le rl t) h
  | commit t =>
      simp only [apply_event]
      split
      · rename_i hlt
        have hcap : (rl.clean_old_requests t).requests_per_minute =
            rl.requests_per_minute := rfl
        rw [hcap] at hlt
        simp only [List.length_append, List.length_cons, List.length_nil]
        omega
      · exact le_trans (clean_length_le rl t) h

lemma run_events_requests_per_minute (rl : RateLimiter) (es : List GateEvent) :
    (rl.run_events es).requests_per_minute = rl.requests_per_minute := by
  induction es generalizing rl with
  | nil => rfl
  | cons e es ih =>
      simp only [run_events]
      rw [ih, apply_event_requests_per_minute]

lemma run_events_length_le (rl : RateLimiter) (es : List GateEvent)
    (h : rl.request_times.length ≤ rl.requests_per_minute) :
    (rl.run_events es).request_times.length ≤ rl.requests_per_minute := by
  induction es generalizing rl with
  | nil => exact h
  | cons e es ih =>
      simp only [run_events]
      have h1 := apply_event_length_le rl e h
      have h2 := ih (rl.apply_event e)
      rw [apply_event_requests_per_minute] at h2
      exact h2 h1

end RateLimiter

/-- C1: for every sequence of gate operations (each operation's effect on
the shared deque is a prune or the locked re-check-and-append of
`acquire`), at every observation time `now` the number of entries whose
age is strictly below the window is at most the capacity; moreover the
append of `acquire` happens only when, after pruning, fewer than
`capacity` timestamps remain. -/
theorem gate_capacity_invariant (rl : RateLimiter) (es : List RateLimiter.GateEvent)
    (now : ℚ) (h : rl.request_times.length ≤ rl.requests_per_minute) :
    ((rl.run_events es).request_times.filter
        (fun t => decide (now - t < (rl.run_events es).window_seconds))).length
      ≤ rl.requests_per_minute ∧
    ∀ (s : RateLimiter) (t : ℚ),
      s.requests_per_minute ≤ (s.clean_old_requests t).request_times.length →
      s.apply_event (.commit t) = s.clean_old_requests t := by
  constructor
  · exact le_trans (List.length_filter_le _ _) (RateLimiter.run_events_length_le rl es h)
  · intro s t ht
    simp only [RateLimiter.apply_event]
    rw [if_neg]
    exact not_lt.mpr ht

/-- Witness for C1 at the module-level initial state and a concrete
event sequence. -/
theorem gate_capacity_invariant_witness :
    (RateLimiter.init.request_times.length ≤ RateLimiter.init.requests_per_minute) ∧
    (((RateLimiter.init.run_events [.commit 0, .commit 0, .prune 30]).request_times.filter
        (fun t => decide ((30 : ℚ) - t <
          (RateLimiter.init.run_events [.commit 0, .commit 0, .prune 30]).window_seconds))).length
      ≤ RateLimiter.init.requests_per_minute ∧
    ∀ (s : RateLimiter) (t : ℚ),
      s.requests_per_minute ≤ (s.clean_old_requests t).request_times.length →
      s.apply_event (.commit t) = s.clean_old_requests t) :=
  ⟨by decide, gate_capacity_invariant RateLimiter.init [.commit 0, .commit 0, .prune 30] 30
    (by decide)⟩

lemma mem_dropWhile_cutoff_le {cutoff : ℚ} :
    ∀ {l : List ℚ}, l.Sorted (· ≤ ·) →
      ∀ {t : ℚ}, t ∈ l.dropWhile (fun x => decide (x < cutoff)) → cutoff ≤ t := by
  intro l
  induction l with
  | nil => intro _ t ht; simp [List.dropWhile] at ht
  | cons c tl ih =>
      intro hs t ht
      by_cases hc : c < cutoff
      · rw [List.dropWhile_cons_of_pos (by simpa using hc)] at ht
        exact ih hs.of_cons ht
      · rw [List.dropWhile_cons_of_neg (by simpa using hc)] at ht
        rcases List.mem_cons.mp ht with rfl | hmem
        · exact le_of_not_lt hc
        · exact le_trans (le_of_not_lt hc) (List.rel_of_sorted_cons hs _ hmem)

/-- C7 (amended): after the prune, every remaining entry of a sorted
deque satisfies `now - timestamp ≤ windowDurationSeconds` (the bound is
non-strict: the prune pops only entries strictly below the cutoff, so an
entry of age exactly the window survives), and the deque stays sorted
ascending. -/
theorem clean_age_bound_sorted (rl : RateLimiter) (now : ℚ)
    (hs : rl.request_times.Sorted (· ≤ ·)) :
    (∀ t ∈ (rl.clean_old_requests now).request_times,
        now - t ≤ rl.window_seconds) ∧
    (rl.clean_old_requests now).request_times.Sorted (· ≤ ·) := by
  constructor
  · intro t ht
    simp only [RateLimiter.clean_old_requests] at ht
    have := mem_dropWhile_cutoff_le hs ht
    linarith
  · exact List.Pairwise.sublist (List.dropWhile_sublist _) hs

/-- Witness for C7's amended statement on a concrete sorted deque. -/
theorem clean_age_bound_sorted_witness :
    (RateLimiter.mk 25 60 [0, 30]).request_times.Sorted (· ≤ ·) ∧
    ((∀ t ∈ ((RateLimiter.mk 25 60 [0, 30]).clean_old_requests 50).request_times,
        (50 : ℚ) - t ≤ (RateLimiter.mk 25 60 [0, 30]).window_seconds) ∧
     ((RateLimiter.mk 25 60 [0, 30]).clean_old_requests 50).request_times.Sorted
        (· ≤ ·)) :=
  ⟨by decide, clean_age_bound_sorted (RateLimiter.mk 25 60 [0, 30]) 50 (by decide)⟩

/-- C7 counterexample: at `now = 60` with window 60, the entry with
timestamp `0` (age exactly the window) survives the prune, so the
claimed strict bound `now - timestamp < windowDurationSeconds` is
violated. -/
theorem clean_strict_age_counterexample :
    ((RateLimiter.mk 25 60 [0]).clean_old_requests 60).request_times = [0] ∧
    ¬ ((60 : ℚ) - 0 < (RateLimiter.mk 25 60 [0]).window_seconds) := by
  constructor
  · norm_num [RateLimiter.clean_old_requests, List.dropWhile_cons]
  · norm_num

/-- C8: `get_wait_time` prunes, returns `0` when fewer than `capacity`
timestamps remain and otherwise `(oldest + window) - now` floored at
`0`; the resulting state is exactly the pruned one (and in particular
the configuration fields are unchanged). -/
theorem get_wait_time_spec (rl : RateLimiter) (now : ℚ)
    (hcap : 0 < rl.requests_per_minute) :
    (rl.get_wait_time now).2 = rl.clean_old_requests now ∧
    (rl.get_wait_time now).2.requests_per_minute = rl.requests_per_minute ∧
    (rl.get_wait_time now).2.window_seconds = rl.window_seconds ∧
    (rl.get_wait_time now).1 =
      (if (rl.clean_old_requests now).request_times.length < rl.requests_per_minute
       then 0
       else max 0 ((rl.clean_old_requests now).request_times.headI +
                     rl.window_seconds - now)) := by
  unfold RateLimiter.get_wait_time
  by_cases hlt :
      (rl.clean_old_requests now).request_times.length < rl.requests_per_minute
  · simp [RateLimiter.clean_requests_per_minute, RateLimiter.clean_window_seconds, hlt]
  · simp [RateLimiter.clean_requests_per_minute, RateLimiter.clean_window_seconds, hlt]

/-- Witness for C8 at the module-level initial configuration. -/
theorem get_wait_time_spec_witness :
    (0 < (RateLimiter.mk 25 60 []).requests_per_minute) ∧
    (((RateLimiter.mk 25 60 []).get_wait_time 0).2 =
        (RateLimiter.mk 25 60 []).clean_old_requests 0 ∧
     ((RateLimiter.mk 25 60 []).get_wait_time 0).2.requests_per_minute =
        (RateLimiter.mk 25 60 []).requests_per_minute ∧
     ((RateLimiter.mk 25 60 []).get_wait_time 0).2.window_seconds =
        (RateLimiter.mk 25 60 []).window_seconds ∧
     ((RateLimiter.mk 25 60 []).get_wait_time 0).1 =
       (if ((RateLimiter.mk 25 60 []).clean_old_requests 0).request_times.length <
            (RateLimiter.mk 25 60 []).requests_per_minute
        then 0
        else max 0 (((RateLimiter.mk 25 60 []).clean_old_requests 0).request_times.headI +
                      (RateLimiter.mk 25 60 []).window_seconds - 0))) :=
  ⟨by decide, get_wait_time_spec (RateLimiter.mk 25 60 []) 0 (by decide)⟩

/-- C9: `get_current_usage` prunes and then reports the count of
remaining timestamps, the capacity, the difference, and the window; in
particular after two admitted calls on the initial 25-per-60s
configuration it reports `{used = 2, limit = 25, available = 23,
windowSeconds = 60}`. -/
theorem get_current_usage_spec (rl : RateLimiter) (now : ℚ) :
    ((rl.get_current_usage now).1.requests_in_window =
        (rl.clean_old_requests now).request_times.length ∧
     (rl.get_current_usage now).1.limit = rl.requests_per_minute ∧
     (rl.get_current_usage now).1.available =
        (rl.requests_per_minute : ℤ) -
          (rl.clean_old_requests now).request_times.length ∧
     (rl.get_current_usage now).1.window_seconds = rl.window_seconds ∧
     (rl.get_current_usage now).2 = rl.clean_old_requests now) ∧
    ((RateLimiter.init.run_events [.commit 0, .commit 0]).get_current_usage 0).1 =
      ⟨2, 25, 23, 60⟩ :=
  ⟨⟨rfl, rfl, rfl, rfl, rfl⟩, by
    norm_num [RateLimiter.run_events, RateLimiter.apply_event,
      RateLimiter.clean_old_requests, RateLimiter.get_current_usage, RateLimiter.init,
      List.dropWhile_cons]⟩

namespace RateLimiter

lemma get_wait_time_snd (rl : RateLimiter) (now : ℚ) :
    (rl.get_wait_time now).2 = rl.clean_old_requests now := by
  simp only [get_wait_time]
  split <;> rfl

lemma get_wait_time_fst_nonneg (rl : RateLimiter) (now : ℚ) :
    0 ≤ (rl.get_wait_time now).1 := by
  simp only [get_wait_time]
  split
  · exact le_refl 0
  · exact le_max_left 0 _

lemma get_wait_time_fst_of_lt (rl : RateLimiter) (now : ℚ)
    (hlt : (rl.clean_old_requests now).request_times.length < rl.requests_per_minute) :
    (rl.get_wait_time now).1 = 0 := by
  simp only [get_wait_time, clean_requests_per_minute]
  rw [if_pos hlt]

lemma acquire_tail_ne_admitted (rl : RateLimiter) (w e : ℚ) (tmo : Option ℚ)
    (s : RateLimiter) : rl.acquire_tail w e tmo ≠ .admitted s := by
  cases tmo with
  | none => simp [acquire_tail]
  | some t =>
      simp only [acquire_tail]
      split <;> simp

lemma acquire_iter_admitted_of_lt (rl : RateLimiter) (now elapsed : ℚ)
    (tmo : Option ℚ)
    (hlt : (rl.clean_old_requests now).request_times.length < rl.requests_per_minute) :
    rl.acquire_iter now elapsed tmo =
      .admitted { rl.clean_old_requests now with
        request_times := (rl.clean_old_requests now).request_times ++ [now] } := by
  have hw : (rl.get_wait_time now).1 = 0 := get_wait_time_fst_of_lt rl now hlt
  simp only [acquire_iter, get_wait_time_snd, hw, clean_idem,
    clean_requests_per_minute, eq_self_iff_true, if_true]
  rw [if_pos hlt]

lemma acquire_iter_no_admit_of_ge (rl : RateLimiter) (now elapsed : ℚ)
    (tmo : Option ℚ)
    (hge : ¬ (rl.clean_old_requests now).request_times.length < rl.requests_per_minute)
    (s : RateLimiter) : rl.acquire_iter now elapsed tmo ≠ .admitted s := by
  by_cases hw : (rl.get_wait_time now).1 = 0
  · simp only [acquire_iter, get_wait_time_snd, hw, clean_idem,
      clean_requests_per_minute, eq_self_iff_true, if_true]
    rw [if_neg hge]
    exact acquire_tail_ne_admitted _ _ _ _ s
  · simp only [acquire_iter, get_wait_time_snd]
    rw [if_neg hw]
    exact acquire_tail_ne_admitted _ _ _ _ s

lemma acquire_iter_timed_out (rl : RateLimiter) (now : ℚ)
    (hw : (rl.get_wait_time now).1 ≠ 0) :
    rl.acquire_iter now 0 (some 0) = .timed_out (rl.clean_old_requests now) := by
  have hpos : 0 < (rl.get_wait_time now).1 :=
    lt_of_le_of_ne (get_wait_time_fst_nonneg rl now) (Ne.symm hw)
  simp only [acquire_iter, get_wait_time_snd]
  rw [if_neg hw]
  have harg : (0 : ℚ) + (rl.get_wait_time now).1 > 0 := by
    rw [zero_add]; exact hpos
  simp only [acquire_tail]
  rw [if_pos harg]

lemma acquire_fixed_spin_self (rl : RateLimiter) (now elapsed : ℚ)
    (tmo : Option ℚ) (h : rl.acquire_iter now elapsed tmo = .spin rl 0) :
    ∀ fuel, rl.acquire_fixed now elapsed tmo fuel = none := by
  intro fuel
  induction fuel with
  | zero => rfl
  | succ n ih =>
      simp only [acquire_fixed, h, add_zero]
      exact ih

end RateLimiter

/-- C5 (amended): in a single-threaded run with a frozen clock, the
first iteration of an immediately-following `acquire()` admits the
caller (returns `True` with no sleep) if and only if `get_wait_time`
returns `0` AND the pruned deque is below capacity.  (The claim's plain
iff fails: `get_wait_time` can also return `0` at capacity when the
oldest entry's age is exactly the window, and then `acquire` spins
instead of succeeding — see the counterexample.) -/
theorem wait_time_zero_iff_immediate (rl : RateLimiter) (now : ℚ) :
    (∃ s, rl.acquire_iter now 0 none = .admitted s) ↔
      ((rl.get_wait_time now).1 = 0 ∧
       (rl.clean_old_requests now).request_times.length < rl.requests_per_minute) := by
  constructor
  · rintro ⟨s, hs⟩
    by_cases hlt :
        (rl.clean_old_requests now).request_times.length < rl.requests_per_minute
    · exact ⟨RateLimiter.get_wait_time_fst_of_lt rl now hlt, hlt⟩
    · exact absurd hs (RateLimiter.acquire_iter_no_admit_of_ge rl now 0 none hlt s)
  · rintro ⟨-, hlt⟩
    exact ⟨_, RateLimiter.acquire_iter_admitted_of_lt rl now 0 none hlt⟩

/-- C5 counterexample: capacity 1, window 60 s, one timestamp of age
exactly 60 s at `now = 60`.  `get_wait_time` returns `0`, but the
following `acquire()` does not succeed: its loop iteration leaves the
state unchanged and sleeps `0` (a busy spin), so with the clock frozen
the loop never returns (`acquire_fixed … = none` for 5 iterations). -/
theorem wait_time_zero_spin_counterexample :
    (RateLimiter.get_wait_time (RateLimiter.mk 1 60 [0]) 60).1 = 0 ∧
    RateLimiter.acquire_iter (RateLimiter.mk 1 60 [0]) 60 0 none =
      .spin (RateLimiter.mk 1 60 [0]) 0 ∧
    RateLimiter.acquire_fixed (RateLimiter.mk 1 60 [0]) 60 0 none 5 = none := by
  have hit : RateLimiter.acquire_iter (RateLimiter.mk 1 60 [0]) 60 0 none =
      .spin (RateLimiter.mk 1 60 [0]) 0 := by
    norm_num [RateLimiter.acquire_iter, RateLimiter.acquire_tail,
      RateLimiter.get_wait_time, RateLimiter.clean_old_requests,
      List.dropWhile_cons, List.headI]
  refine ⟨?_, hit, RateLimiter.acquire_fixed_spin_self _ _ _ _ hit 5⟩
  norm_num [RateLimiter.get_wait_time, RateLimiter.clean_old_requests,
    List.dropWhile_cons, List.headI]

/-- C6 (amended): provided the computed wait is nonzero or the pruned
deque is below capacity (which excludes only the boundary case of a
timestamp of age exactly the window), `acquire(timeout = 0)` decides in
a single loop iteration without sleeping: it returns `True` (appending
`now`) exactly when the pruned deque is below capacity, and `False`
otherwise.  Concretely, with capacity 2 and a 60 s window, after two
admissions at `t = 0` a third `acquire(timeout = 0)` at `t = 0` returns
`False`, and at `t = 60.001` it returns `True`. -/
theorem acquire_zero_timeout_probe (rl : RateLimiter) (now : ℚ)
    (h : (rl.get_wait_time now).1 ≠ 0 ∨
         (rl.clean_old_requests now).request_times.length < rl.requests_per_minute) :
    (rl.acquire_fixed now 0 (some 0) 1 =
      if (rl.clean_old_requests now).request_times.length < rl.requests_per_minute
      then some (true, { rl.clean_old_requests now with
              request_times := (rl.clean_old_requests now).request_times ++ [now] })
      else some (false, rl.clean_old_requests now)) ∧
    RateLimiter.acquire_fixed (RateLimiter.mk 2 60 [0, 0]) 0 0 (some 0) 1 =
      some (false, RateLimiter.mk 2 60 [0, 0]) ∧
    RateLimiter.acquire_fixed (RateLimiter.mk 2 60 [0, 0]) (60001/1000) 0 (some 0) 1 =
      some (true, RateLimiter.mk 2 60 [60001/1000]) := by
  refine ⟨?_, ?_, ?_⟩
  · by_cases hlt :
        (rl.clean_old_requests now).request_times.length < rl.requests_per_minute
    · rw [if_pos hlt]
      simp only [RateLimiter.acquire_fixed,
        RateLimiter.acquire_iter_admitted_of_lt rl now 0 (some 0) hlt]
    · rw [if_neg hlt]
      have hw : (rl.get_wait_time now).1 ≠ 0 := h.resolve_right hlt
      simp only [RateLimiter.acquire_fixed,
        RateLimiter.acquire_iter_timed_out rl now hw]
  · norm_num [RateLimiter.acquire_fixed, RateLimiter.acquire_iter,
      RateLimiter.acquire_tail, RateLimiter.get_wait_time,
      RateLimiter.clean_old_requests, List.dropWhile_cons, List.headI]
  · norm_num [RateLimiter.acquire_fixed, RateLimiter.acquire_iter,
      RateLimiter.acquire_tail, RateLimiter.get_wait_time,
      RateLimiter.clean_old_requests, List.dropWhile_cons, List.headI]

/-- Witness for C6's amended statement at the full-gate scenario
(capacity 2, two timestamps at `t = 0`, probe at `t = 0`). -/
theorem acquire_zero_timeout_probe_witness :
    ((RateLimiter.get_wait_time (RateLimiter.mk 2 60 [0, 0]) 0).1 ≠ 0 ∨
     (RateLimiter.clean_old_requests (RateLimiter.mk 2 60 [0, 0]) 0).request_times.length <
       (RateLimiter.mk 2 60 [0, 0]).requests_per_minute) ∧
    ((RateLimiter.acquire_fixed (RateLimiter.mk 2 60 [0, 0]) 0 0 (some 0) 1 =
      if (RateLimiter.clean_old_requests (RateLimiter.mk 2 60 [0, 0]) 0).request_times.length <
          (RateLimiter.mk 2 60 [0, 0]).requests_per_minute
      then some (true, { RateLimiter.clean_old_requests (RateLimiter.mk 2 60 [0, 0]) 0 with
              request_times :=
                (RateLimiter.clean_old_requests (RateLimiter.mk 2 60 [0, 0]) 0).request_times
                  ++ [0] })
      else some (false, RateLimiter.clean_old_requests (RateLimiter.mk 2 60 [0, 0]) 0)) ∧
    RateLimiter.acquire_fixed (RateLimiter.mk 2 60 [0, 0]) 0 0 (some 0) 1 =
      some (false, RateLimiter.mk 2 60 [0, 0]) ∧
    RateLimiter.acquire_fixed (RateLimiter.mk 2 60 [0, 0]) (60001/1000) 0 (some 0) 1 =
      some (true, RateLimiter.mk 2 60 [60001/1000])) :=
  ⟨by
    left
    norm_num [RateLimiter.get_wait_time, RateLimiter.clean_old_requests,
      List.dropWhile_cons, List.headI],
   acquire_zero_timeout_probe (RateLimiter.mk 2 60 [0, 0]) 0 (by
    left
    norm_num [RateLimiter.get_wait_time, RateLimiter.clean_old_requests,
      List.dropWhile_cons, List.headI])⟩

/-- C6 counterexample: capacity 1, window 60 s, one timestamp of age
exactly 60 s at `now = 60`.  Capacity is not available (the pruned deque
is still full), yet `acquire(timeout = 0)` does not return `False`: the
iteration busy-spins with the state unchanged, so it is not a single
non-blocking probe (after 5 iterations it still has not returned). -/
theorem acquire_zero_timeout_boundary_counterexample :
    ¬ ((RateLimiter.clean_old_requests (RateLimiter.mk 1 60 [0]) 60).request_times.length <
        (RateLimiter.mk 1 60 [0]).requests_per_minute) ∧
    RateLimiter.acquire_iter (RateLimiter.mk 1 60 [0]) 60 0 (some 0) =
      .spin (RateLimiter.mk 1 60 [0]) 0 ∧
    RateLimiter.acquire_fixed (RateLimiter.mk 1 60 [0]) 60 0 (some 0) 5 = none := by
  have hit : RateLimiter.acquire_iter (RateLimiter.mk 1 60 [0]) 60 0 (some 0) =
      .spin (RateLimiter.mk 1 60 [0]) 0 := by
    norm_num [RateLimiter.acquire_iter, RateLimiter.acquire_tail,
      RateLimiter.get_wait_time, RateLimiter.clean_old_requests,
      List.dropWhile_cons, List.headI]
  refine ⟨?_, hit, RateLimiter.acquire_fixed_spin_self _ _ _ _ hit 5⟩
  norm_num [RateLimiter.clean_old_requests, List.dropWhile_cons]

lemma containsSub_spec (n : List Char) :
    ∀ h : List Char, containsSub n h = true ↔ n <:+: h := by
  intro h
  induction h with
  | nil =>
      cases n <;> simp [containsSub]
  | cons c t ih =>
      simp [containsSub, ih, List.infix_cons_iff, List.isPrefixOf_iff_prefix]

lemma strContains_intro {hay needle : String}
    (h : needle.data <:+: hay.data) : strContains hay needle = true :=
  (containsSub_spec _ _).mpr h

lemma strContains_middle (a b c : String) : strContains (a ++ (b ++ c)) b = true := by
  apply strContains_intro
  simp only [String.data_append]
  exact List.infix_append' _ _ _

/-- The quota-exhaustion message contains both the retry budget and the
last underlying error text (it is built from them). -/
lemma quota_msg_contains (max_retries : ℕ) (e : String) :
    strContains (quota_msg max_retries e) (toString max_retries) = true ∧
    strContains (quota_msg max_retries e) e = true := by
  constructor
  · unfold quota_msg
    rw [String.append_assoc]
    exact strContains_middle _ _ _
  · unfold quota_msg
    rw [String.append_assoc, ← String.append_assoc (toString max_retries),
      ← String.append_assoc "API quota exceeded after "]
    exact strContains_middle _ _ _

lemma run_attempts_all_quota (call : ℕ → Except String String)
    (max_retries base_delay : ℕ) (err : ℕ → String)
    (hc : ∀ i, call i = .error (err i))
    (hq : ∀ i, is_quota_error (err i) = true) :
    ∀ (remaining attempt : ℕ) (sleeps : List ℕ) (ncalls : ℕ),
      remaining + attempt = max_retries → 0 < remaining →
      run_attempts call max_retries base_delay remaining attempt sleeps ncalls =
        ⟨.error (.quotaExceeded (quota_msg max_retries (err (max_retries - 1)))),
         sleeps ++ (List.range' attempt (max_retries - 1 - attempt)).map
           (fun i => base_delay * 2 ^ i),
         ncalls + remaining⟩ := by
  intro remaining
  induction remaining with
  | zero => intro attempt sleeps ncalls _ hpos; exact absurd hpos (lt_irrefl 0)
  | succ r ih =>
      intro attempt sleeps ncalls hinv _
      simp only [run_attempts]
      rw [hc attempt]
      simp only [hq attempt, if_true]
      by_cases hlt : attempt < max_retries - 1
      · rw [if_pos hlt]
        rw [ih (attempt + 1) (sleeps ++ [base_delay * 2 ^ attempt]) (ncalls + 1)
          (by omega) (by omega)]
        have hbreak : max_retries - 1 - attempt =
            (max_retries - 1 - (attempt + 1)) + 1 := by omega
        simp only [ExecTrace.mk.injEq]
        refine ⟨trivial, ?_, by omega⟩
        rw [hbreak, List.range'_succ, List.map_cons, List.append_assoc,
          List.singleton_append]
      · rw [if_neg hlt]
        have ha : attempt = max_retries - 1 := by omega
        have hr : r = 0 := by omega
        subst hr
        rw [ha]
        simp

/-- C2: when every invocation of the underlying call raises a
quota-classified error, the executor makes exactly `maxRetries`
attempts, sleeps `baseDelaySeconds * 2 ^ attemptIndex` after each failed
attempt except the last (so `[1, 2]` for `maxRetries = 3`,
`baseDelaySeconds = 1`), and fails with the quota-exceeded error whose
message contains the attempt count and the last underlying error
text. -/
theorem executor_quota_exhaustion (call : ℕ → Except String String)
    (max_retries base_delay : ℕ) (err : ℕ → String)
    (hmax : 1 ≤ max_retries)
    (hc : ∀ i, call i = .error (err i))
    (hq : ∀ i, is_quota_error (err i) = true) :
    generate_response true call max_retries base_delay =
      ⟨.error (.quotaExceeded (quota_msg max_retries (err (max_retries - 1)))),
       (List.range (max_retries - 1)).map (fun i => base_delay * 2 ^ i),
       max_retries⟩ ∧
    strContains (quota_msg max_retries (err (max_retries - 1)))
      (toString max_retries) = true ∧
    strContains (quota_msg max_retries (err (max_retries - 1)))
      (err (max_retries - 1)) = true := by
  refine ⟨?_, (quota_msg_contains _ _).1, (quota_msg_contains _ _).2⟩
  have hgen : generate_response true call max_retries base_delay =
      run_attempts call max_retries base_delay max_retries 0 [] 0 := rfl
  rw [hgen, run_attempts_all_quota call max_retries base_delay err hc hq
    max_retries 0 [] 0 (by omega) (by omega)]
  simp [List.range_eq_range']

/-- Witness for C2: the spec's scenario — a call that always raises
"rate limit exceeded", `maxRetries = 3`, `baseDelaySeconds = 1` — gives
sleeps `[1, 2]`, exactly 3 attempts, and the quota-exceeded failure. -/
theorem executor_quota_exhaustion_witness :
    (1 ≤ 3) ∧ is_quota_error "rate limit exceeded" = true ∧
    (generate_response true (fun _ => Except.error "rate limit exceeded") 3 1 =
      ⟨.error (.quotaExceeded (quota_msg 3 "rate limit exceeded")),
       (List.range (3 - 1)).map (fun i => 1 * 2 ^ i), 3⟩ ∧
     strContains (quota_msg 3 "rate limit exceeded") (toString 3) = true ∧
     strContains (quota_msg 3 "rate limit exceeded") "rate limit exceeded" = true) :=
  ⟨by omega, by decide,
   executor_quota_exhaustion (fun _ => Except.error "rate limit exceeded") 3 1
     (fun _ => "rate limit exceeded") (by omega) (fun _ => rfl)
     (fun _ => (by decide : is_quota_error "rate limit exceeded" = true))⟩

/-- C3: when the first invocation of the call raises an error carrying
none of the quota signals, the executor fails on the first attempt with
the wrapped generation-failed error, invokes the call exactly once, and
never sleeps. -/
theorem executor_other_error_immediate (call : ℕ → Except String String)
    (max_retries base_delay : ℕ) (e : String)
    (hmax : 1 ≤ max_retries) (hc : call 0 = .error e)
    (hq : is_quota_error e = false) :
    generate_response true call max_retries base_delay =
      ⟨.error (.genFailed ("Generation failed: " ++ e)), [], 1⟩ := by
  have hgen : generate_response true call max_retries base_delay =
      run_attempts call max_retries base_delay max_retries 0 [] 0 := rfl
  rw [hgen]
  obtain ⟨m, rfl⟩ : ∃ m, max_retries = m + 1 := ⟨max_retries - 1, by omega⟩
  simp only [run_attempts]
  rw [hc]
  simp [hq]

/-- Witness for C3: the spec's "invalid request" scenario. -/
theorem executor_other_error_immediate_witness :
    (1 ≤ 5) ∧ is_quota_error "invalid request" = false ∧
    generate_response true (fun _ => Except.error "invalid request") 5 5 =
      ⟨.error (.genFailed ("Generation failed: " ++ "invalid request")), [], 1⟩ :=
  ⟨by omega, by decide,
   executor_other_error_immediate (fun _ => Except.error "invalid request") 5 5
     "invalid request" (by omega) rfl (by decide)⟩

/-- C4: with no credential configured, the executor fails with the
distinct not-configured error before invoking the call even once (zero
calls, zero sleeps), and the message directs the user to configure
their API key. -/
theorem executor_not_configured_fast (call : ℕ → Except String String)
    (max_retries base_delay : ℕ) :
    generate_response false call max_retries base_delay =
      ⟨.error (.notConfigured not_configured_msg), [], 0⟩ ∧
    strContains not_configured_msg "API key" = true :=
  ⟨rfl, by decide⟩

lemma run_attempts_ne_exhausted (call : ℕ → Except String String)
    (max_retries base_delay : ℕ) :
    ∀ (remaining attempt : ℕ) (sleeps : List ℕ) (ncalls : ℕ),
      remaining + attempt = max_retries → 0 < remaining →
      (run_attempts call max_retries base_delay remaining attempt sleeps
          ncalls).result ≠ Except.error GenError.exhaustedLoop := by
  intro remaining
  induction remaining with
  | zero => intro _ _ _ _ hpos; exact absurd hpos (lt_irrefl 0)
  | succ r ih =>
      intro attempt sleeps ncalls hinv _
      simp only [run_attempts]
      cases hcall : call attempt with
      | ok v => simp
      | error e =>
          by_cases hq : is_quota_error e = true
          · simp only [hq, eq_self_iff_true, if_true]
            by_cases hlt : attempt < max_retries - 1
            · rw [if_pos hlt]
              exact ih (attempt + 1) _ _ (by omega) (by omega)
            · rw [if_neg hlt]
              simp
          · have hq2 : is_quota_error e = false := by simpa using hq
            simp [hq2]

/-- C10: for any call behaviour and any `maxRetries ≥ 1`, every loop
iteration either returns, raises, or continues to the next iteration,
so the trailing raise after the loop ("Generation failed after multiple
retries") is unreachable: the executor's result is never that raise
site's error. -/
theorem executor_loop_trailing_unreachable (configured : Bool)
    (call : ℕ → Except String String) (max_retries base_delay : ℕ)
    (hmax : 1 ≤ max_retries) :
    (generate_response configured call max_retries base_delay).result ≠
      Except.error GenError.exhaustedLoop := by
  cases configured with
  | false => simp [generate_response]
  | true =>
      have hgen : generate_response true call max_retries base_delay =
          run_attempts call max_retries base_delay max_retries 0 [] 0 := rfl
      rw [hgen]
      exact run_attempts_ne_exhausted call max_retries base_delay max_retries 0 [] 0
        (by omega) (by omega)

/-- Witness for C10 at a concrete succeeding call. -/
theorem executor_loop_trailing_unreachable_witness :
    (1 ≤ 5) ∧
    (generate_response true (fun _ => Except.ok "ok") 5 5).result ≠
      Except.error GenError.exhaustedLoop :=
  ⟨by omega,
   executor_loop_trailing_unreachable true (fun _ => Except.ok "ok") 5 5 (by omega)⟩
